import Mathlib

/-!
Shallow embedding of the epoch-transition accounting pipeline of the
beacon-chain consensus client (packages `beacon-chain/core/altair` and
`beacon-chain/core/epoch/precompute`), together with theorems settling the
frozen claims about it.

Machine `uint64` values are modelled as `Nat`; all the Go arithmetic involved
here is non-wrapping in the reachable range, and the saturating subtractions of
the source (`DecreaseBalanceWithVal`, the inactivity-score clamps) coincide
with truncated `Nat` subtraction.  Go integer division panics on a zero
divisor; where a claim hinges on that behaviour (the slashing path, and the
shared base-reward multiplier of the reward/penalty step) the embedding
threads an `Except`/`Option` result, with `none`/`.error` standing for the
runtime panic.
-/

set_option linter.unusedVariables false

namespace EpochAccounting

/-- Registry entry of a validator, restricted to the fields read by the
slashing applicator and the snapshot builder (`state.ReadOnlyValidator`). -/
structure Validator where
  slashed : Bool
  effectiveBalance : Nat
  withdrawableEpoch : Nat

/-- Per-validator precompute record (`precompute.Validator`, spec section 3).
The two write-only diagnostic balance snapshots
(`BeforeEpochTransitionBalance`, `AfterEpochTransitionBalance`) are omitted:
nothing in the modelled pipeline reads them. -/
structure PrecomputeValidator where
  isSlashed : Bool
  isWithdrawableCurrentEpoch : Bool
  isActiveCurrentEpoch : Bool
  isActivePrevEpoch : Bool
  isCurrentEpochTargetAttester : Bool
  isPrevEpochAttester : Bool
  isPrevEpochTargetAttester : Bool
  isPrevEpochHeadAttester : Bool
  currentEpochEffectiveBalance : Nat
  inactivityScore : Nat

/-- Per-epoch balance accumulator (`precompute.Balance`, spec section 3). -/
structure Balance where
  activeCurrentEpoch : Nat
  activePrevEpoch : Nat
  prevEpochAttested : Nat
  prevEpochTargetAttested : Nat
  prevEpochHeadAttested : Nat

/-- Modelled from the spec: the protocol-constant configuration object
(`params.BeaconConfig()`, spec section 6), which is not under the analysed
sources; one field per constant the pipeline reads. -/
structure BeaconConfig where
  genesisEpoch : Nat
  effectiveBalanceIncrement : Nat
  baseRewardFactor : Nat
  weightDenominator : Nat
  timelySourceWeight : Nat
  timelyTargetWeight : Nat
  timelyHeadWeight : Nat
  timelySourceFlagIndex : Nat
  timelyTargetFlagIndex : Nat
  timelyHeadFlagIndex : Nat
  inactivityScoreBias : Nat
  inactivityScoreRecoveryRate : Nat
  inactivityPenaltyQuotientAltair : Nat
  proportionalSlashingMultiplier : Nat
  epochsPerSlashingsVector : Nat
  epochsPerSyncCommitteePeriod : Nat
  minEpochsToInactivityPenalty : Nat

/-- The mainnet values of the protocol constants (Altair). -/
def mainnetConfig : BeaconConfig where
  genesisEpoch := 0
  effectiveBalanceIncrement := 1000000000
  baseRewardFactor := 64
  weightDenominator := 64
  timelySourceWeight := 14
  timelyTargetWeight := 26
  timelyHeadWeight := 14
  timelySourceFlagIndex := 0
  timelyTargetFlagIndex := 1
  timelyHeadFlagIndex := 2
  inactivityScoreBias := 4
  inactivityScoreRecoveryRate := 16
  inactivityPenaltyQuotientAltair := 50331648
  proportionalSlashingMultiplier := 2
  epochsPerSlashingsVector := 8192
  epochsPerSyncCommitteePeriod := 256
  minEpochsToInactivityPenalty := 4

/-- Abstract state container (spec section 6): the persisted fields the
pipeline reads and writes.  The current epoch number is carried directly, as
the spec derives it externally from the slot. -/
structure BeaconState where
  currentEpoch : Nat
  finalizedCheckpointEpoch : Nat
  validators : List Validator
  balances : List Nat
  inactivityScores : List Nat
  currentEpochParticipation : List Nat
  previousEpochParticipation : List Nat
  slashings : List Nat
  currentSyncCommittee : List Nat
  nextSyncCommittee : List Nat

/-- Modelled from the spec: `core.PrevEpoch` (not under the analysed sources);
the current epoch minus one, floored at the genesis epoch 0. -/
def prevEpoch (e : Nat) : Nat := e - 1

/-- Modelled from the spec: `helpers.IsInInactivityLeak` (not under the
analysed sources); the chain is in an inactivity leak when the previous epoch
minus the last-finalized-checkpoint epoch exceeds the protocol leak
threshold (spec sections 4.3 and 9). -/
def isInInactivityLeak (cfg : BeaconConfig) (prevE finalizedE : Nat) : Bool :=
  cfg.minEpochsToInactivityPenalty < prevE - finalizedE

/-- Modelled from the spec: `altair.HasValidatorFlag` (not under the analysed
sources); bit-mask membership test of a participation flag index in a
participation byte (spec section 9). -/
def hasValidatorFlag (flag flagIndex : Nat) : Bool :=
  Nat.testBit flag flagIndex

/-- Modelled from the spec: `precompute.EligibleForRewards` (not under the
analysed sources); a validator is eligible when it was active in the previous
epoch, or is slashed and not yet withdrawable (spec section 4.3). -/
def eligibleForRewards (v : PrecomputeValidator) : Bool :=
  v.isActivePrevEpoch || (v.isSlashed && !v.isWithdrawableCurrentEpoch)

/-- Per-validator attestation reward/penalty (`attestationDelta`,
`epoch_precompute.go` lines 242-300).  The sequential Go `reward +=` /
`penalty +=` statements are unfolded into one let-binding per accumulation
step, in source order. -/
def attestationDelta (cfg : BeaconConfig) (bal : Balance) (v : PrecomputeValidator)
    (baseRewardMultiplier inactivityDenominator : Nat) (inactivityLeak : Bool) :
    Nat × Nat :=
  let eligible := v.isActivePrevEpoch || (v.isSlashed && !v.isWithdrawableCurrentEpoch)
  if !eligible || bal.activeCurrentEpoch == 0 then (0, 0)
  else
    let increment := cfg.effectiveBalanceIncrement
    let effectiveBalance := v.currentEpochEffectiveBalance
    let baseReward := effectiveBalance / increment * baseRewardMultiplier
    let activeIncrement := bal.activeCurrentEpoch / increment
    let weightDenominator := cfg.weightDenominator
    let srcWeight := cfg.timelySourceWeight
    let tgtWeight := cfg.timelyTargetWeight
    let headWeight := cfg.timelyHeadWeight
    let reward1 :=
      if v.isPrevEpochAttester && !v.isSlashed then
        if !inactivityLeak then
          baseReward * srcWeight * (bal.prevEpochAttested / increment) /
            (activeIncrement * weightDenominator)
        else 0
      else 0
    let penalty1 :=
      if v.isPrevEpochAttester && !v.isSlashed then 0
      else baseReward * srcWeight / weightDenominator
    let reward2 := reward1 +
      (if v.isPrevEpochTargetAttester && !v.isSlashed then
        if !inactivityLeak then
          baseReward * tgtWeight * (bal.prevEpochTargetAttested / increment) /
            (activeIncrement * weightDenominator)
        else 0
      else 0)
    let penalty2 := penalty1 +
      (if v.isPrevEpochTargetAttester && !v.isSlashed then 0
      else baseReward * tgtWeight / weightDenominator)
    let reward3 := reward2 +
      (if v.isPrevEpochHeadAttester && !v.isSlashed then
        if !inactivityLeak then
          baseReward * headWeight * (bal.prevEpochHeadAttested / increment) /
            (activeIncrement * weightDenominator)
        else 0
      else 0)
    let penalty3 := penalty2 +
      (if !v.isPrevEpochTargetAttester || v.isSlashed then
        effectiveBalance * v.inactivityScore / inactivityDenominator
      else 0)
    (reward3, penalty3)

/-- Validator record for the eligibility counterexample: active in the
previous epoch but with no previous-epoch attestation flags, not slashed. -/
def cexValidator : PrecomputeValidator where
  isSlashed := false
  isWithdrawableCurrentEpoch := false
  isActiveCurrentEpoch := true
  isActivePrevEpoch := true
  isCurrentEpochTargetAttester := false
  isPrevEpochAttester := false
  isPrevEpochTargetAttester := false
  isPrevEpochHeadAttester := false
  currentEpochEffectiveBalance := 32000000000
  inactivityScore := 0

/-- Balance accumulator for the eligibility counterexample. -/
def cexBalance : Balance where
  activeCurrentEpoch := 32000000000
  activePrevEpoch := 32000000000
  prevEpochAttested := 0
  prevEpochTargetAttested := 0
  prevEpochHeadAttested := 0

/-- Go integer division, which panics on a zero divisor (modelled as
`none`). -/
def checkedDiv (a b : Nat) : Option Nat :=
  if b = 0 then none else some (a / b)

/-- List-level rewards/penalties (`AttestationsDelta`, `epoch_precompute.go`
lines 219-240).  `mathutil.IntegerSquareRoot` is `Nat.sqrt` (floored integer
square root, spec section 4.4); the shared base-reward multiplier divides by
it with no zero guard, so at `activeCurrentEpoch = 0` the original panics
with a Go divide-by-zero, modelled as `.error`. -/
def attestationsDelta (cfg : BeaconConfig) (st : BeaconState) (bal : Balance)
    (vals : List PrecomputeValidator) : Except String (List Nat × List Nat) :=
  let increment := cfg.effectiveBalanceIncrement
  let factor := cfg.baseRewardFactor
  match checkedDiv (increment * factor) (Nat.sqrt bal.activeCurrentEpoch) with
  | none => .error "integer divide by zero"
  | some baseRewardMultiplier =>
    let leak := isInInactivityLeak cfg (prevEpoch st.currentEpoch) st.finalizedCheckpointEpoch
    let inactivityDenominator := cfg.inactivityScoreBias * cfg.inactivityPenaltyQuotientAltair
    .ok (vals.map fun v =>
        (attestationDelta cfg bal v baseRewardMultiplier inactivityDenominator leak).1,
      vals.map fun v =>
        (attestationDelta cfg bal v baseRewardMultiplier inactivityDenominator leak).2)

/-- Balance application loop of `ProcessRewardsAndPenaltiesPrecompute`
(`epoch_precompute.go` lines 200-210): each balance is increased by the reward
then decreased by the penalty, the decrease saturating at zero
(`helpers.IncreaseBalanceWithVal` / `helpers.DecreaseBalanceWithVal`, modelled
from the spec as addition and floored subtraction).  The guards of the caller
ensure the three lists have equal length. -/
def applyDeltas : List Nat → List Nat → List Nat → List Nat
  | b :: bs, r :: rs, p :: ps => (b + r - p) :: applyDeltas bs rs ps
  | bs, _, _ => bs

/-- Reward/penalty application step (`ProcessRewardsAndPenaltiesPrecompute`,
`epoch_precompute.go` lines 179-217): genesis short-circuit, length guard,
then delta computation (whose divide-by-zero panic propagates) and delta
application.  The write-only diagnostic snapshots into the precompute records
are omitted. -/
def processRewardsAndPenaltiesPrecompute (cfg : BeaconConfig) (st : BeaconState)
    (bal : Balance) (vals : List PrecomputeValidator) : Except String BeaconState :=
  if st.currentEpoch == 0 then .ok st
  else
    let numOfVals := st.validators.length
    if vals.length != numOfVals || vals.length != st.balances.length then
      .error "validator registries not the same length as state's validator registries"
    else
      match attestationsDelta cfg st bal vals with
      | .error e => .error e
      | .ok deltas =>
        .ok { st with balances := applyDeltas st.balances deltas.1 deltas.2 }

/-- Current-epoch loop of `ProcessEpochParticipation` (`epoch_precompute.go`
lines 153-157): for each byte of the current-epoch participation array, when
the timely-target flag is set the record at that index is read (Go panics on
an out-of-range index, modelled as `none`) and marked when active. -/
def participationLoopCurrent (targetIdx : Nat) :
    List Nat → Nat → List PrecomputeValidator → Option (List PrecomputeValidator)
  | [], _, vals => some vals
  | b :: rest, i, vals =>
    if hasValidatorFlag b targetIdx then
      match vals.get? i with
      | none => none
      | some v =>
        participationLoopCurrent targetIdx rest (i + 1)
          (if v.isActiveCurrentEpoch then
            vals.set i { v with isCurrentEpochTargetAttester := true }
          else vals)
    else participationLoopCurrent targetIdx rest (i + 1) vals

/-- One guarded flag assignment of the previous-epoch loop: read the record at
index `i` (out-of-range read is a Go panic, modelled as `none`) and apply the
update when the record was active in the previous epoch. -/
def setPrevFlag (flagSet : PrecomputeValidator → PrecomputeValidator) (i : Nat)
    (vals : List PrecomputeValidator) : Option (List PrecomputeValidator) :=
  match vals.get? i with
  | none => none
  | some v => some (if v.isActivePrevEpoch then vals.set i (flagSet v) else vals)

/-- Previous-epoch loop of `ProcessEpochParticipation` (`epoch_precompute.go`
lines 162-172): three guarded flag assignments per byte, in source order. -/
def participationLoopPrev (cfg : BeaconConfig) :
    List Nat → Nat → List PrecomputeValidator → Option (List PrecomputeValidator)
  | [], _, vals => some vals
  | b :: rest, i, vals => do
    let vals ←
      if hasValidatorFlag b cfg.timelySourceFlagIndex then
        setPrevFlag (fun v => { v with isPrevEpochAttester := true }) i vals
      else some vals
    let vals ←
      if hasValidatorFlag b cfg.timelyTargetFlagIndex then
        setPrevFlag (fun v => { v with isPrevEpochTargetAttester := true }) i vals
      else some vals
    let vals ←
      if hasValidatorFlag b cfg.timelyHeadFlagIndex then
        setPrevFlag (fun v => { v with isPrevEpochHeadAttester := true }) i vals
      else some vals
    participationLoopPrev cfg rest (i + 1) vals

/-- Modelled from the spec: `precompute.UpdateBalance` (not under the analysed
sources); recomputes the previous-epoch attested accumulator fields as the sum
of effective balances of the validators with the corresponding flag set (spec
section 4.2). -/
def updateBalance (vals : List PrecomputeValidator) (bal : Balance) : Balance :=
  { bal with
    prevEpochAttested :=
      (vals.map fun v =>
        if v.isPrevEpochAttester then v.currentEpochEffectiveBalance else 0).sum
    prevEpochTargetAttested :=
      (vals.map fun v =>
        if v.isPrevEpochTargetAttester then v.currentEpochEffectiveBalance else 0).sum
    prevEpochHeadAttested :=
      (vals.map fun v =>
        if v.isPrevEpochHeadAttester then v.currentEpochEffectiveBalance else 0).sum }

/-- Participation-flag resolver (`ProcessEpochParticipation`,
`epoch_precompute.go` lines 136-175): current-epoch loop, previous-epoch loop,
accumulator recomputation.  `none` models a Go index-out-of-range panic. -/
def processEpochParticipation (cfg : BeaconConfig) (st : BeaconState) (bal : Balance)
    (vals : List PrecomputeValidator) :
    Option (List PrecomputeValidator × Balance) := do
  let vals ← participationLoopCurrent cfg.timelyTargetFlagIndex
    st.currentEpochParticipation 0 vals
  let vals ← participationLoopPrev cfg st.previousEpochParticipation 0 vals
  some (vals, updateBalance vals bal)

/-- Per-validator inactivity-score update (`ProcessInactivityScores`,
`epoch_precompute.go` lines 99-115), applied to an eligible record. -/
def applyInactivityUpdate (cfg : BeaconConfig) (leak : Bool)
    (v : PrecomputeValidator) : PrecomputeValidator :=
  let v :=
    if v.isPrevEpochTargetAttester && !v.isSlashed then
      if v.inactivityScore > 0 then
        { v with inactivityScore := v.inactivityScore - 1 }
      else v
    else { v with inactivityScore := v.inactivityScore + cfg.inactivityScoreBias }
  if !leak then
    let score :=
      if cfg.inactivityScoreRecoveryRate > v.inactivityScore then v.inactivityScore
      else cfg.inactivityScoreRecoveryRate
    { v with inactivityScore := v.inactivityScore - score }
  else v

/-- Validator loop of `ProcessInactivityScores` (`epoch_precompute.go` lines
94-117): returns the written-back score list and the updated records.  The
pipeline maintains equal lengths (spec section 3); on a longer record list the
original would panic writing past the score array, here the extra records are
updated with no score written. -/
def inactivityLoop (cfg : BeaconConfig) (leak : Bool) :
    List PrecomputeValidator → List Nat → List Nat × List PrecomputeValidator
  | [], scores => (scores, [])
  | v :: vs, scores =>
    if eligibleForRewards v then
      let v2 := applyInactivityUpdate cfg leak v
      let rest := inactivityLoop cfg leak vs scores.tail
      (v2.inactivityScore :: rest.1, v2 :: rest.2)
    else
      let rest := inactivityLoop cfg leak vs scores.tail
      (scores.headD 0 :: rest.1, v :: rest.2)

/-- Inactivity score updater (`ProcessInactivityScores`, `epoch_precompute.go`
lines 72-124): genesis short-circuit, then the per-validator update with the
scores written back to the state. -/
def processInactivityScores (cfg : BeaconConfig) (st : BeaconState)
    (vals : List PrecomputeValidator) : BeaconState × List PrecomputeValidator :=
  if st.currentEpoch == cfg.genesisEpoch then (st, vals)
  else
    let leak := isInInactivityLeak cfg (prevEpoch st.currentEpoch) st.finalizedCheckpointEpoch
    let r := inactivityLoop cfg leak vals st.inactivityScores
    ({ st with inactivityScores := r.1 }, r.2)

/-- Sum of the rolling slashings vector (`slashing.go` lines 20-24). -/
def sumSlashings (l : List Nat) : Nat :=
  l.foldl (· + ·) 0

/-- Per-validator slashing penalty as computed inline by the validator
function of `ProcessSlashingsPrecompute` (`slashing.go` lines 50-51), keeping
the floor divisions in exactly the source order. -/
def slashedPenalty (cfg : BeaconConfig) (minSlashing active : Nat) (v : Validator) : Nat :=
  v.effectiveBalance / cfg.effectiveBalanceIncrement * minSlashing / active *
    cfg.effectiveBalanceIncrement

/-- Validator loop of `ProcessSlashingsPrecompute` (`slashing.go` lines
47-60), walking validators and balances in index lockstep.  A zero divisor is
a Go panic (`.error`); a balance write past the end of the balance list is the
state-container error of `helpers.DecreaseBalance` (modelled from the spec:
the container rejects out-of-range writes); the balance decrease floors at
zero. -/
def slashLoop (cfg : BeaconConfig) (epochToWithdraw minSlashing active : Nat) :
    List Validator → List Nat → Except String (List Nat)
  | [], bs => .ok bs
  | v :: vs, bs =>
    if v.slashed && (epochToWithdraw == v.withdrawableEpoch) then
      match checkedDiv v.effectiveBalance cfg.effectiveBalanceIncrement with
      | none => .error "integer divide by zero"
      | some q =>
        match checkedDiv (q * minSlashing) active with
        | none => .error "integer divide by zero"
        | some p =>
          match bs with
          | [] => .error "invalid balance index"
          | b :: rest =>
            (slashLoop cfg epochToWithdraw minSlashing active vs rest).map
              fun rest2 => (b - p * cfg.effectiveBalanceIncrement) :: rest2
    else
      match bs with
      | [] => slashLoop cfg epochToWithdraw minSlashing active vs []
      | b :: rest =>
        (slashLoop cfg epochToWithdraw minSlashing active vs rest).map
          fun rest2 => b :: rest2

/-- The balance list produced by a successful run of the slashing loop:
matching validators lose the slashing penalty, every other balance is kept. -/
def slashApply (cfg : BeaconConfig) (epochToWithdraw minSlashing active : Nat) :
    List Validator → List Nat → List Nat
  | v :: vs, b :: bs =>
    (if v.slashed && (epochToWithdraw == v.withdrawableEpoch) then
      b - slashedPenalty cfg minSlashing active v
    else b) :: slashApply cfg epochToWithdraw minSlashing active vs bs
  | _, bs => bs

/-- Slashing penalty applicator (`ProcessSlashingsPrecompute`, `slashing.go`
lines 15-61): total-slashings sum, `minSlashing` clamp, withdrawal-epoch
computation, read-only pre-scan, then the penalty loop.
`mathutil.Min` is `min`. -/
def processSlashingsPrecompute (cfg : BeaconConfig) (st : BeaconState)
    (bal : Balance) : Except String BeaconState :=
  let exitLength := cfg.epochsPerSlashingsVector
  let totalSlashing := sumSlashings st.slashings
  let minSlashing := min (totalSlashing * cfg.proportionalSlashingMultiplier)
    bal.activeCurrentEpoch
  let epochToWithdraw := st.currentEpoch + exitLength / 2
  let hasSlashing := st.validators.any fun v =>
    v.slashed && (epochToWithdraw == v.withdrawableEpoch)
  if !hasSlashing then .ok st
  else
    (slashLoop cfg epochToWithdraw minSlashing bal.activeCurrentEpoch
        st.validators st.balances).map
      fun bs => { st with balances := bs }

/-- Participation rotation (`ProcessParticipationFlagUpdates`,
`epoch_spec.go` lines 50-62): previous participation takes the current array,
the current array is re-created zeroed at validator-count length. -/
def processParticipationFlagUpdates (st : BeaconState) : BeaconState :=
  { st with
    previousEpochParticipation := st.currentEpochParticipation
    currentEpochParticipation := List.replicate st.validators.length 0 }

/-- Sync-committee succession (`ProcessSyncCommitteeUpdates`, `epoch_spec.go`
lines 20-42).  The external committee-selection function
(`altair.NextSyncCommittee`, an external collaborator per spec section 6) is a
parameter, evaluated against the state after the current committee was
replaced.  The internal committee-index cache rebuild has no state effect and
is omitted. -/
def processSyncCommitteeUpdates (cfg : BeaconConfig)
    (selectNext : BeaconState → List Nat) (st : BeaconState) : BeaconState :=
  let nextEpoch := st.currentEpoch + 1
  if nextEpoch % cfg.epochsPerSyncCommitteePeriod == 0 then
    let st2 := { st with currentSyncCommittee := st.nextSyncCommittee }
    { st2 with nextSyncCommittee := selectNext st2 }
  else st

/-- The inactivity-score update exactly as the claim states it: a correct
unslashed target vote decrements the score by one (never below zero, which is
truncated subtraction), otherwise the score grows by the bias constant; then,
only outside an inactivity leak, the score additionally drops by
`min score recoveryRate`.  Stated from the claim wording, to be compared with
the code path. -/
def claimedInactivityUpdate (cfg : BeaconConfig) (leak : Bool)
    (v : PrecomputeValidator) : Nat :=
  let stepped :=
    if v.isPrevEpochTargetAttester && !v.isSlashed then v.inactivityScore - 1
    else v.inactivityScore + cfg.inactivityScoreBias
  if leak then stepped else stepped - min stepped cfg.inactivityScoreRecoveryRate

/-- Zero balance accumulator. -/
def zeroBalance : Balance where
  activeCurrentEpoch := 0
  activePrevEpoch := 0
  prevEpochAttested := 0
  prevEpochTargetAttested := 0
  prevEpochHeadAttested := 0

/-- Precompute record with every flag cleared. -/
def pvInactive : PrecomputeValidator where
  isSlashed := false
  isWithdrawableCurrentEpoch := false
  isActiveCurrentEpoch := false
  isActivePrevEpoch := false
  isCurrentEpochTargetAttester := false
  isPrevEpochAttester := false
  isPrevEpochTargetAttester := false
  isPrevEpochHeadAttester := false
  currentEpochEffectiveBalance := 0
  inactivityScore := 0

/-- A slashed record carrying every attester flag, for exercising the
slashed-validator reward exclusion. -/
def slashedRecord : PrecomputeValidator :=
  { cexValidator with
    isSlashed := true
    isPrevEpochAttester := true
    isPrevEpochTargetAttester := true
    isPrevEpochHeadAttester := true
    inactivityScore := 5 }

/-- State whose current-epoch participation array is one byte longer than its
single-entry validator registry, the extra byte carrying the timely-target
flag: the participation resolver reads past the end of the precompute list
there. -/
def c2State : BeaconState where
  currentEpoch := 1
  finalizedCheckpointEpoch := 0
  validators := [⟨false, 32000000000, 100⟩]
  balances := [32000000000]
  inactivityScores := [0]
  currentEpochParticipation := [0, 2]
  previousEpochParticipation := [0]
  slashings := [0]
  currentSyncCommittee := []
  nextSyncCommittee := []

/-- Precompute record accompanying `c2State`. -/
def c2Record : PrecomputeValidator :=
  { pvInactive with
    isActiveCurrentEpoch := true
    isActivePrevEpoch := true
    currentEpochEffectiveBalance := 32000000000 }

/-- State past genesis whose registry has one validator, used with an empty
precompute list to hit the length guard of the reward/penalty step. -/
def c2MismatchState : BeaconState :=
  { c2State with currentEpochParticipation := [0] }

/-- State sitting at the genesis epoch. -/
def genesisState : BeaconState where
  currentEpoch := 0
  finalizedCheckpointEpoch := 0
  validators := [⟨false, 32000000000, 100⟩]
  balances := [32000000000]
  inactivityScores := [0]
  currentEpochParticipation := [0]
  previousEpochParticipation := [0]
  slashings := [0]
  currentSyncCommittee := [3, 4]
  nextSyncCommittee := [1, 2]

/-- A concrete stand-in for the external sync-committee selection function. -/
def constCommittee : BeaconState → List Nat := fun _ => [42]

/-- State ten epochs past genesis with nothing finalized (the chain is in an
inactivity leak) and one persisted inactivity score of 7. -/
def c4State : BeaconState where
  currentEpoch := 10
  finalizedCheckpointEpoch := 0
  validators := [⟨false, 32000000000, 100⟩]
  balances := [32000000000]
  inactivityScores := [7]
  currentEpochParticipation := [0]
  previousEpochParticipation := [0]
  slashings := [0]
  currentSyncCommittee := []
  nextSyncCommittee := []

/-- Record of an eligible validator that missed its previous-epoch target
vote, with inactivity score 7. -/
def c4Record : PrecomputeValidator :=
  { pvInactive with
    isActivePrevEpoch := true
    currentEpochEffectiveBalance := 32000000000
    inactivityScore := 7 }

/-- Configuration of the slashing-penalty example: mainnet constants with a
proportional slashing multiplier of 3. -/
def slashCfg : BeaconConfig :=
  { mainnetConfig with proportionalSlashingMultiplier := 3 }

/-- State of the slashing-penalty example: one slashed validator of effective
balance `32 * increment` whose withdrawable epoch matches
`currentEpoch + epochsPerSlashingsVector / 2 = 1 + 4096`, with the slashings
vector summing to `3 * increment`. -/
def slashState : BeaconState where
  currentEpoch := 1
  finalizedCheckpointEpoch := 0
  validators := [⟨true, 32000000000, 4097⟩]
  balances := [32000000000]
  inactivityScores := [0]
  currentEpochParticipation := [0]
  previousEpochParticipation := [0]
  slashings := [3000000000]
  currentSyncCommittee := []
  nextSyncCommittee := []

/-- Accumulator of the slashing-penalty example:
`activeCurrentEpoch = 100 * increment`. -/
def slashBalance : Balance :=
  { zeroBalance with activeCurrentEpoch := 100000000000 }

/-- State with one unslashed validator: the slashing pre-scan finds nothing. -/
def noSlashState : BeaconState :=
  { slashState with validators := [⟨false, 32000000000, 4097⟩] }

/-- C1 (counterexample): the claim fails twice on the code.  First, with
eligibility read as the claim words it (`isPrevEpochAttester OR (isSlashed
AND NOT isWithdrawableCurrentEpoch)`), `cexValidator` is ineligible, yet the
per-validator delta is not `(0, 0)`: the record was active in the previous
epoch, so the code charges it the missed source and target penalties.
Second, the whole reward/penalty step is not well-defined at
`activeCurrentEpoch = 0`: past its genesis and length guards it divides the
shared base-reward multiplier by `integerSquareRoot 0 = 0`
(`epoch_precompute.go` line 231), a Go divide-by-zero panic. -/
theorem attestationDelta_spec_eligibility_and_zero_active_cex :
    ((cexValidator.isPrevEpochAttester ||
        (cexValidator.isSlashed && !cexValidator.isWithdrawableCurrentEpoch)) = false ∧
      attestationDelta mainnetConfig cexBalance cexValidator 64 201326592 false ≠ (0, 0)) ∧
    (zeroBalance.activeCurrentEpoch = 0 ∧
      processRewardsAndPenaltiesPrecompute mainnetConfig c2MismatchState zeroBalance
          [c2Record] = .error "integer divide by zero") :=
  ⟨⟨rfl, by decide⟩, rfl, rfl⟩

/-- C1 (amended): for every validator record that is ineligible in the sense
of the code — not active in the previous epoch and not (slashed and not yet
withdrawable) — or whenever the accumulator's `activeCurrentEpoch` is zero,
the per-validator attestation delta is `reward = 0` and `penalty = 0` (it
guards the zero case before its divisions); the reward/penalty step as a
whole, however, is not well-defined at `activeCurrentEpoch = 0`: for every
state and record list its shared base-reward multiplier divides by
`integerSquareRoot 0 = 0`, a runtime divide-by-zero panic. -/
theorem attestationDelta_ineligible_amended (cfg : BeaconConfig) (bal : Balance)
    (v : PrecomputeValidator) (m d : Nat) (leak : Bool)
    (h : (v.isActivePrevEpoch || (v.isSlashed && !v.isWithdrawableCurrentEpoch)) = false ∨
      bal.activeCurrentEpoch = 0) :
    attestationDelta cfg bal v m d leak = (0, 0) ∧
      (bal.activeCurrentEpoch = 0 →
        ∀ (st : BeaconState) (vals : List PrecomputeValidator),
          attestationsDelta cfg st bal vals = .error "integer divide by zero") := by
  constructor
  · rcases h with h | h
    · simp [attestationDelta, h]
    · simp [attestationDelta, h]
  · intro h0 st vals
    simp [attestationsDelta, h0, checkedDiv, Nat.sqrt_zero]

/-- Witness for the amended C1: a fully inactive record under a zero active
balance gets delta `(0, 0)`, and the list-level delta computation at that
balance is the divide-by-zero panic. -/
theorem attestationDelta_ineligible_witness :
    ((pvInactive.isActivePrevEpoch ||
        (pvInactive.isSlashed && !pvInactive.isWithdrawableCurrentEpoch)) = false ∨
      zeroBalance.activeCurrentEpoch = 0) ∧
    attestationDelta mainnetConfig zeroBalance pvInactive 64 201326592 false = (0, 0) ∧
    attestationsDelta mainnetConfig c4State zeroBalance [pvInactive] =
      .error "integer divide by zero" := by
  have h := attestationDelta_ineligible_amended mainnetConfig zeroBalance pvInactive 64
    201326592 false (Or.inr rfl)
  exact ⟨Or.inr rfl, h.1, h.2 rfl c4State [pvInactive]⟩

/-- C6: the computed penalty does not depend on the previous-epoch head
attester flag — two records differing only in `isPrevEpochHeadAttester` get
the same penalty; a missed head vote is only unrewarded, never penalized. -/
theorem missed_head_vote_never_penalized (cfg : BeaconConfig) (bal : Balance)
    (m d : Nat) (leak : Bool) (v : PrecomputeValidator) (b : Bool) :
    (attestationDelta cfg bal { v with isPrevEpochHeadAttester := b } m d leak).2 =
      (attestationDelta cfg bal v m d leak).2 := by
  cases v
  simp only [attestationDelta]
  split
  · rfl
  · rfl

/-- C9: a slashed validator record never accrues an attestation reward,
whatever its attester or activity flags and whatever the leak state. -/
theorem slashed_validator_zero_reward (cfg : BeaconConfig) (bal : Balance)
    (m d : Nat) (leak : Bool) (v : PrecomputeValidator)
    (h : v.isSlashed = true) :
    (attestationDelta cfg bal v m d leak).1 = 0 := by
  cases v
  simp only at h
  subst h
  simp only [attestationDelta]
  split
  · rfl
  · simp

/-- Witness for C9 at a slashed record carrying all attester flags. -/
theorem slashed_validator_zero_reward_witness :
    slashedRecord.isSlashed = true ∧
    (attestationDelta mainnetConfig cexBalance slashedRecord 64 201326592 false).1 = 0 :=
  ⟨rfl,
    slashed_validator_zero_reward mainnetConfig cexBalance 64 201326592 false
      slashedRecord rfl⟩

theorem slashLoop_eq_ok (cfg : BeaconConfig) (e m a : Nat)
    (hinc : cfg.effectiveBalanceIncrement ≠ 0) (ha : a ≠ 0) :
    ∀ (vs : List Validator) (bs : List Nat), bs.length = vs.length →
      slashLoop cfg e m a vs bs = .ok (slashApply cfg e m a vs bs) := by
  intro vs
  induction vs with
  | nil => intro bs h; rfl
  | cons v vs ih =>
    intro bs h
    cases bs with
    | nil => simp at h
    | cons b rest =>
      have h2 : rest.length = vs.length := by simpa using h
      by_cases hm : (v.slashed && (e == v.withdrawableEpoch)) = true
      · simp [slashLoop, slashApply, hm, checkedDiv, hinc, ha, ih rest h2,
          slashedPenalty, Except.map]
      · simp [slashLoop, slashApply, hm, ih rest h2, Except.map]

theorem slashApply_get (cfg : BeaconConfig) (e m a : Nat) :
    ∀ (vs : List Validator) (bs : List Nat) (k : Nat) (v : Validator) (b : Nat),
      vs.get? k = some v → bs.get? k = some b →
      (slashApply cfg e m a vs bs).get? k =
        some (if v.slashed && (e == v.withdrawableEpoch) then
          b - slashedPenalty cfg m a v else b) := by
  intro vs
  induction vs with
  | nil => intro bs k v b hv hb; simp at hv
  | cons w ws ih =>
    intro bs k v b hv hb
    cases bs with
    | nil => simp at hb
    | cons c cs =>
      cases k with
      | zero =>
        simp only [List.get?] at hv hb
        cases hv; cases hb
        simp [slashApply]
      | succ k =>
        simp only [List.get?] at hv hb
        simpa [slashApply] using ih cs k v b hv hb

/-- C5: the slashing applicator computes
`minSlashing = min (totalSlashings * multiplier) activeCurrentEpoch` and
`epochToWithdraw = currentEpoch + epochsPerSlashingsVector / 2`, succeeds, and
decreases (floored at zero) the balance of every validator slashed with
matching withdrawable epoch by
`effectiveBalance / increment * minSlashing / activeCurrentEpoch * increment`,
the floor divisions taken in exactly that order, while every other balance is
kept. -/
theorem slashing_penalty_formula (cfg : BeaconConfig) (st : BeaconState) (bal : Balance)
    (hinc : cfg.effectiveBalanceIncrement ≠ 0) (hact : bal.activeCurrentEpoch ≠ 0)
    (hlen : st.balances.length = st.validators.length) :
    ∃ st2, processSlashingsPrecompute cfg st bal = .ok st2 ∧
      ∀ k v b, st.validators.get? k = some v → st.balances.get? k = some b →
        st2.balances.get? k =
          some (if v.slashed &&
              (st.currentEpoch + cfg.epochsPerSlashingsVector / 2 == v.withdrawableEpoch) then
            b - v.effectiveBalance / cfg.effectiveBalanceIncrement *
              min (sumSlashings st.slashings * cfg.proportionalSlashingMultiplier)
                bal.activeCurrentEpoch /
              bal.activeCurrentEpoch * cfg.effectiveBalanceIncrement
          else b) := by
  by_cases hs : (st.validators.any fun v =>
      v.slashed && (st.currentEpoch + cfg.epochsPerSlashingsVector / 2 ==
        v.withdrawableEpoch)) = true
  · have heq : processSlashingsPrecompute cfg st bal = .ok { st with balances := slashApply cfg (st.currentEpoch + cfg.epochsPerSlashingsVector / 2) (min (sumSlashings st.slashings * cfg.proportionalSlashingMultiplier) bal.activeCurrentEpoch) bal.activeCurrentEpoch st.validators st.balances } := by
      simp only [processSlashingsPrecompute, hs, Bool.not_true, Bool.false_eq_true,
        if_false]
      rw [slashLoop_eq_ok cfg _ _ _ hinc hact st.validators st.balances hlen]
      rfl
    refine ⟨_, heq, ?_⟩
    intro k v b hv hb
    exact
      (by
        simpa [slashedPenalty] using
          slashApply_get cfg
            (st.currentEpoch + cfg.epochsPerSlashingsVector / 2)
            (min (sumSlashings st.slashings * cfg.proportionalSlashingMultiplier)
              bal.activeCurrentEpoch)
            bal.activeCurrentEpoch st.validators st.balances k v b hv hb)
  · refine ⟨st, ?_, ?_⟩
    · simp only [Bool.not_eq_true] at hs
      simp [processSlashingsPrecompute, hs]
    · intro k v b hv hb
      simp only [Bool.not_eq_true, List.any_eq_false] at hs
      have hcond := hs v (List.get?_mem hv)
      simp only [hcond, Bool.false_eq_true, if_false]
      simpa using hb

/-- Witness for C5 at the claim's concrete numbers: `totalSlashings = 3 *
increment`, multiplier 3, `activeCurrentEpoch = 100 * increment`,
`effectiveBalance = 32 * increment`; the penalty is exactly `2 * increment`,
leaving a balance of `30 * increment`. -/
theorem slashing_penalty_formula_witness :
    ∃ st2, processSlashingsPrecompute slashCfg slashState slashBalance = .ok st2 ∧
      st2.balances.get? 0 = some 30000000000 := by
  obtain ⟨st2, h1, h2⟩ :=
    slashing_penalty_formula slashCfg slashState slashBalance (by decide) (by decide)
      (by decide)
  refine ⟨st2, h1, ?_⟩
  have h3 := h2 0 ⟨true, 32000000000, 4097⟩ 32000000000 rfl rfl
  rw [h3]
  decide

/-- C7: when no validator is both slashed and withdrawable exactly at
`currentEpoch + epochsPerSlashingsVector / 2`, the slashing applicator
returns without error and leaves the state, its balance list included,
exactly unchanged. -/
theorem slashing_noop_fast_path (cfg : BeaconConfig) (st : BeaconState) (bal : Balance)
    (h : ∀ v ∈ st.validators,
      ¬(v.slashed = true ∧
        v.withdrawableEpoch = st.currentEpoch + cfg.epochsPerSlashingsVector / 2)) :
    processSlashingsPrecompute cfg st bal = .ok st := by
  have hany : (st.validators.any fun v =>
      v.slashed && (st.currentEpoch + cfg.epochsPerSlashingsVector / 2 ==
        v.withdrawableEpoch)) = false := by
    rw [List.any_eq_false]
    intro v hv
    have := h v hv
    simp only [Bool.and_eq_true, beq_iff_eq, not_and]
    intro hsl heq
    exact this ⟨hsl, heq.symm⟩
  simp [processSlashingsPrecompute, hany]

/-- Witness for C7 at a state whose only validator is unslashed. -/
theorem slashing_noop_fast_path_witness :
    processSlashingsPrecompute mainnetConfig noSlashState zeroBalance = .ok noSlashState :=
  slashing_noop_fast_path mainnetConfig noSlashState zeroBalance (by decide)

/-- C10: the slashing applicator divides by the accumulator's
`activeCurrentEpoch` only on the branch where some validator is slashed with
matching withdrawable epoch; under the precondition that
`activeCurrentEpoch` is nonzero whenever such a validator exists (and the
increment constant is nonzero, with consistent list lengths) the applicator
always succeeds — and the division indeed carries no zero-divisor guard: at a
state with such a validator but a zero `activeCurrentEpoch` it fails with the
divide-by-zero panic. -/
theorem slashing_division_total :
    (∀ (cfg : BeaconConfig) (st : BeaconState) (bal : Balance),
        st.balances.length = st.validators.length →
        cfg.effectiveBalanceIncrement ≠ 0 →
        ((∃ v ∈ st.validators, v.slashed = true ∧
            v.withdrawableEpoch = st.currentEpoch + cfg.epochsPerSlashingsVector / 2) →
          bal.activeCurrentEpoch ≠ 0) →
        ∃ st2, processSlashingsPrecompute cfg st bal = .ok st2) ∧
      processSlashingsPrecompute slashCfg slashState zeroBalance =
        .error "integer divide by zero" := by
  constructor
  · intro cfg st bal hlen hinc hact
    by_cases hs : (st.validators.any fun v =>
        v.slashed && (st.currentEpoch + cfg.epochsPerSlashingsVector / 2 ==
          v.withdrawableEpoch)) = true
    · have hex : ∃ v ∈ st.validators, v.slashed = true ∧
          v.withdrawableEpoch = st.currentEpoch + cfg.epochsPerSlashingsVector / 2 := by
        rw [List.any_eq_true] at hs
        obtain ⟨v, hv, hp⟩ := hs
        simp only [Bool.and_eq_true, beq_iff_eq] at hp
        exact ⟨v, hv, hp.1, hp.2.symm⟩
      have heq := slashLoop_eq_ok cfg
        (st.currentEpoch + cfg.epochsPerSlashingsVector / 2)
        (min (sumSlashings st.slashings * cfg.proportionalSlashingMultiplier)
          bal.activeCurrentEpoch)
        bal.activeCurrentEpoch hinc (hact hex) st.validators st.balances hlen
      have heq2 : processSlashingsPrecompute cfg st bal = .ok { st with balances := slashApply cfg (st.currentEpoch + cfg.epochsPerSlashingsVector / 2) (min (sumSlashings st.slashings * cfg.proportionalSlashingMultiplier) bal.activeCurrentEpoch) bal.activeCurrentEpoch st.validators st.balances } := by
        simp only [processSlashingsPrecompute, hs, Bool.not_true, Bool.false_eq_true,
          if_false]
        rw [heq]
        rfl
      exact ⟨_, heq2⟩
    · simp only [Bool.not_eq_true] at hs
      exact ⟨st, by simp [processSlashingsPrecompute, hs]⟩
  · rfl

/-- Witness for the universal part of C10 at the slashing example state. -/
theorem slashing_division_total_witness :
    ∃ st2, processSlashingsPrecompute slashCfg slashState slashBalance = .ok st2 :=
  slashing_division_total.1 slashCfg slashState slashBalance (by decide) (by decide)
    (fun _ => by decide)

/-- C2 (code evaluated at the failing input): on a state whose current-epoch
participation array is one byte longer than the precompute list, the extra
byte carrying the timely-target flag, the participation resolver reads past
the end of the record list — the Go original panics with an index
out-of-range, modelled as `none`, instead of surfacing a consistency error —
whereas the reward/penalty step does guard its lengths and fails with the
consistency error on a mismatched precompute list. -/
theorem participation_mismatch_out_of_range :
    processEpochParticipation mainnetConfig c2State zeroBalance [c2Record] = none ∧
    processRewardsAndPenaltiesPrecompute mainnetConfig c2MismatchState zeroBalance [] =
      .error "validator registries not the same length as state's validator registries" :=
  ⟨rfl, rfl⟩

/-- C3: at the genesis epoch (epoch 0, with the sync-committee period not
dividing epoch 1, as on mainnet) the reward/penalty step returns the state
unchanged without error, and the sync-committee update leaves the current and
next committees unchanged. -/
theorem genesis_epoch_noop (cfg : BeaconConfig) (st : BeaconState) (bal : Balance)
    (vals : List PrecomputeValidator) (selectNext : BeaconState → List Nat)
    (hg : st.currentEpoch = cfg.genesisEpoch) (h0 : cfg.genesisEpoch = 0)
    (hp : (st.currentEpoch + 1) % cfg.epochsPerSyncCommitteePeriod ≠ 0) :
    processRewardsAndPenaltiesPrecompute cfg st bal vals = .ok st ∧
      processSyncCommitteeUpdates cfg selectNext st = st := by
  constructor
  · simp [processRewardsAndPenaltiesPrecompute, hg, h0]
  · simp [processSyncCommitteeUpdates, hp]

/-- Witness for C3 at a genesis-epoch state with the mainnet constants. -/
theorem genesis_epoch_noop_witness :
    processRewardsAndPenaltiesPrecompute mainnetConfig genesisState zeroBalance [] =
        .ok genesisState ∧
      processSyncCommitteeUpdates mainnetConfig constCommittee genesisState =
        genesisState :=
  genesis_epoch_noop mainnetConfig genesisState zeroBalance [] constCommittee rfl rfl
    (by decide)

/-- C8: the rotation moves the current participation array into the previous
slot and re-creates the current array zeroed at validator-count length; hence
two consecutive rotations with no intervening writes leave the previous array
equal to the all-zero array of validator-count length. -/
theorem participation_rotation_idempotence (st : BeaconState) :
    (processParticipationFlagUpdates st).previousEpochParticipation =
        st.currentEpochParticipation ∧
      (processParticipationFlagUpdates st).currentEpochParticipation =
        List.replicate st.validators.length 0 ∧
      (processParticipationFlagUpdates
          (processParticipationFlagUpdates st)).previousEpochParticipation =
        List.replicate st.validators.length 0 :=
  ⟨rfl, rfl, rfl⟩

theorem applyInactivityUpdate_score (cfg : BeaconConfig) (leak : Bool)
    (v : PrecomputeValidator) :
    (applyInactivityUpdate cfg leak v).inactivityScore =
      claimedInactivityUpdate cfg leak v := by
  rcases Bool.eq_false_or_eq_true (v.isPrevEpochTargetAttester && !v.isSlashed)
    with h2 | h2 <;>
  cases leak <;>
  simp only [applyInactivityUpdate, claimedInactivityUpdate,
    apply_ite PrecomputeValidator.inactivityScore, h2, Bool.not_true, Bool.not_false,
    Bool.false_eq_true, Bool.true_eq_false, if_true, if_false, ite_true, ite_false,
    Nat.min_def] <;>
  split_ifs <;> omega

theorem inactivityLoop_get (cfg : BeaconConfig) (leak : Bool) :
    ∀ (vs : List PrecomputeValidator) (scores : List Nat) (k : Nat)
      (v : PrecomputeValidator),
      vs.get? k = some v → eligibleForRewards v = true →
      (inactivityLoop cfg leak vs scores).1.get? k =
        some (applyInactivityUpdate cfg leak v).inactivityScore := by
  intro vs
  induction vs with
  | nil => intro scores k v hv _; simp at hv
  | cons w ws ih =>
    intro scores k v hv he
    cases k with
    | zero =>
      simp only [List.get?] at hv
      cases hv
      simp [inactivityLoop, he]
    | succ k =>
      simp only [List.get?] at hv
      by_cases hw : eligibleForRewards w = true
      · simpa [inactivityLoop, hw] using ih scores.tail k v hv he
      · simpa [inactivityLoop, hw] using ih scores.tail k v hv he

/-- C4: past the genesis epoch, the written-back inactivity score of every
eligible validator record follows exactly the claimed update — minus one
(floored at zero) on an unslashed correct target vote, otherwise plus the
bias constant, then minus `min score recoveryRate` only outside an
inactivity leak — and consequently a validator that misses its target vote
during a leak gains exactly the bias per epoch. -/
theorem inactivity_score_update_spec (cfg : BeaconConfig) (st : BeaconState)
    (vals : List PrecomputeValidator) (i : Nat) (v : PrecomputeValidator)
    (hg : st.currentEpoch ≠ cfg.genesisEpoch)
    (hv : vals.get? i = some v)
    (he : eligibleForRewards v = true)
    (hlen : st.inactivityScores.length = vals.length) :
    (processInactivityScores cfg st vals).1.inactivityScores.get? i =
        some (claimedInactivityUpdate cfg
          (isInInactivityLeak cfg (prevEpoch st.currentEpoch)
            st.finalizedCheckpointEpoch) v) ∧
      (isInInactivityLeak cfg (prevEpoch st.currentEpoch)
            st.finalizedCheckpointEpoch = true →
        v.isPrevEpochTargetAttester = false →
        claimedInactivityUpdate cfg true v =
          v.inactivityScore + cfg.inactivityScoreBias) := by
  constructor
  · have hne : (st.currentEpoch == cfg.genesisEpoch) = false := by
      simpa using hg
    simp only [processInactivityScores, hne, Bool.false_eq_true, if_false]
    rw [inactivityLoop_get cfg _ vals st.inactivityScores i v hv he,
      applyInactivityUpdate_score]
  · intro hl ht
    simp [claimedInactivityUpdate, ht]

/-- Witness for C4: an eligible validator with score 7 missing its target
vote during a leak ends at score 11 with mainnet bias 4. -/
theorem inactivity_score_update_witness :
    (processInactivityScores mainnetConfig c4State [c4Record]).1.inactivityScores.get? 0 =
      some 11 := by
  have h := inactivity_score_update_spec mainnetConfig c4State [c4Record] 0 c4Record
    (by decide) rfl (by decide) (by decide)
  rw [h.1]
  decide

end EpochAccounting
